import Mathlib

/-!
# NPH Automation moisture sensor driver (`sensors/moisture/moisture.go`)

A shallow embedding of the Go package `moisture`.  The driver is a thin
facade over the external `tinygo.org/x/bluetooth` stack.  The stack is not
part of the repository, so every answer it can give is a field of the
record `Transport`; the driver's own control flow (what it checks, what it
stores, what it returns, which transport calls it makes, and where it
indexes a slice) is translated statement by statement.

Conventions
* Go's `error` results are `Outcome`s: `nil`, `err e`, or `fault` for a
  run-time panic (index out of range).
* A method with a pointer receiver returns the updated sensor; `Read` has
  a value receiver and returns the new content of `*result` instead.
* Every operation also returns the list of transport calls it issued.
* `float64` values are represented by their IEEE-754 binary64 bit pattern.
* Bytes are natural numbers below `256`; stores into a `[]byte` reduce
  modulo `256`, `uint64` results modulo `2 ^ 64`.
* `log.Println` / `log.Printf` output is not modelled.
-/

namespace Moisture

/-! ## Values handed out by the Bluetooth stack -/

/-- Go `bluetooth.Address`; the zero value is `⟨0⟩`. -/
structure Address where
  id : Nat
  deriving DecidableEq, Repr

/-- Go `bluetooth.Device` (a connection); the zero value is `⟨0⟩`. -/
structure Device where
  id : Nat
  deriving DecidableEq, Repr

/-- Go `bluetooth.DeviceService`; the zero value is `⟨0⟩`. -/
structure DeviceService where
  id : Nat
  deriving DecidableEq, Repr

/-- Go `bluetooth.DeviceCharacteristic`; the zero value is `⟨0⟩`. -/
structure DeviceCharacteristic where
  id : Nat
  deriving DecidableEq, Repr

/-- Go `bluetooth.UUID`, a 128-bit value. -/
structure UUID where
  bits : Nat
  deriving DecidableEq, Repr

/-- Go `bluetooth.ScanResult`, reduced to the two parts the driver uses:
the `Address` field and the result of `LocalName()`. -/
structure ScanResult where
  address : Address
  localName : String
  deriving DecidableEq, Repr

/-- Go `error` values.  `ErrDevNotSetUp` is the package variable of
`moisture.go`; `errInvalidUUID` belongs to the Bluetooth library; `other`
stands for any further error the stack reports. -/
inductive Error where
  | ErrDevNotSetUp
  | errInvalidUUID
  | other (msg : String)
  deriving DecidableEq, Repr

/-- How a call ends: Go `nil`, a returned error, or a run-time panic. -/
inductive Outcome where
  | nil
  | err (e : Error)
  | fault (msg : String)
  deriving DecidableEq, Repr

/-- Go `float64`, represented by its IEEE-754 binary64 bit pattern. -/
structure Float64 where
  bits : Nat
  deriving DecidableEq, Repr

/-- The zero value `var emptyService bluetooth.DeviceService`. -/
def emptyService : DeviceService := ⟨0⟩

/-- The zero value `var emptyChar bluetooth.DeviceCharacteristic`. -/
def emptyChar : DeviceCharacteristic := ⟨0⟩

/-- The zero value of `bluetooth.Device`. -/
def emptyDevice : Device := ⟨0⟩

/-- The zero value `bluetooth.ScanResult{}`. -/
def emptyScanResult : ScanResult := ⟨⟨0⟩, ""⟩

/-! ## The transport collaborator -/

/-- One call made to the Bluetooth stack. -/
inductive Call where
  | enable
  | scan
  | stopScan
  | connect (a : Address)
  | discoverServices (d : Device) (uuids : List UUID)
  | discoverCharacteristics (s : DeviceService) (uuids : List UUID)
  | read (c : DeviceCharacteristic) (len : Nat)
  | disconnect (d : Device)
  deriving DecidableEq, Repr

/-- The answers of the Bluetooth stack.

* `enable` : result of `adapter.Enable()`.
* `scan` : the scan results handed to the callback before `adapter.Scan`
  returns, in order, and the error `adapter.Scan` returns.
* `stopScan` : result of `adapter.StopScan()`.
* `connect a` : result of `adapter.Connect(a, ConnectionParams{})`.
* `discoverServices d uuids`, `discoverCharacteristics s uuids` : results
  of the two GATT discovery calls.
* `read c len` : the bytes the characteristic delivers for a buffer of
  length `len` (the library copies them into the buffer) and the error.
* `disconnect d` : result of `d.Disconnect()`. -/
structure Transport where
  enable : Option Error
  scan : List ScanResult × Option Error
  stopScan : Option Error
  connect : Address → Except Error Device
  discoverServices : Device → List UUID → Except Error (List DeviceService)
  discoverCharacteristics :
    DeviceService → List UUID → Except Error (List DeviceCharacteristic)
  read : DeviceCharacteristic → Nat → List Nat × Option Error
  disconnect : Device → Option Error

/-! ## Constants -/

/-- Source: `const ServiceUUID string`. -/
def ServiceUUID : String := "a255a717-1559-4ded-9a62-0b285f9a5c8a"

/-- Source: `const CharacteristicUUID string`. -/
def CharacteristicUUID : String := "6fe14a79-6e62-491b-b2e0-174762f9ac9b"

/-- Source: `var ErrDevNotSetUp = errors.New("device was not set up")`. -/
def ErrDevNotSetUp : Error := Error.ErrDevNotSetUp

/-- Value of one hexadecimal digit, as `bluetooth.ParseUUID` reads it. -/
def hexNibble (c : Char) : Option Nat :=
  if '0' ≤ c ∧ c ≤ '9' then some (c.toNat - '0'.toNat)
  else if 'a' ≤ c ∧ c ≤ 'f' then some (c.toNat - 'a'.toNat + 10)
  else if 'A' ≤ c ∧ c ≤ 'F' then some (c.toNat - 'A'.toNat + 10)
  else none

/-- Loop of `bluetooth.ParseUUID`: `acc` is the value read so far and
`n` the number of nibbles consumed (`uuidIndex`). -/
def parseUUIDLoop : List Char → Nat → Nat → Except Error (Nat × Nat)
  | [], acc, n => .ok (acc, n)
  | c :: cs, acc, n =>
    if c = '-' then parseUUIDLoop cs acc n
    else
      match hexNibble c with
      | none => .error Error.errInvalidUUID
      | some v =>
        if n > 31 then .error Error.errInvalidUUID
        else parseUUIDLoop cs (acc * 16 + v) (n + 1)

/-- Modelled from the spec: `bluetooth.ParseUUID` belongs to the external
Bluetooth library and is absent from the sources.  The spec calls the two
identifiers compile-time constants, each a 128-bit UUID value; this is the
library's textual format: hyphens are skipped, exactly 32 hexadecimal
digits are required, anything else is `errInvalidUUID`. -/
def ParseUUID (s : String) : Except Error UUID :=
  match parseUUIDLoop s.toList 0 0 with
  | .error e => .error e
  | .ok (acc, n) => if n ≠ 32 then .error Error.errInvalidUUID else .ok ⟨acc⟩

/-! ## The sensor -/

/-- Source: `type MoistureSensor struct`. -/
structure MoistureSensor where
  name : String
  address : Address
  device : Device
  service : DeviceService
  characteristic : DeviceCharacteristic
  connected : Bool
  deriving DecidableEq, Repr

/-- Result of a method with a pointer receiver: the sensor afterwards, how
the call ended, and the transport calls made, in order. -/
structure Step where
  ms : MoistureSensor
  out : Outcome
  calls : List Call
  deriving DecidableEq, Repr

/-- Result of `Read`: the content of `*result` afterwards, how the call
ended, and the transport calls made. -/
structure ReadStep where
  result : Float64
  out : Outcome
  calls : List Call
  deriving DecidableEq, Repr

/-- Text of Go's panic for `xs[0]` on an empty slice. -/
def indexFault : String := "index out of range [0] with length 0"

/-- Source: `func (ms *MoistureSensor) setupSensor() error`. -/
def MoistureSensor.setupSensor (t : Transport) (ms : MoistureSensor) : Step :=
  match ParseUUID ServiceUUID with
  | .error e => ⟨ms, .err e, []⟩
  | .ok msService =>
    let c1 := Call.discoverServices ms.device [msService]
    match t.discoverServices ms.device [msService] with
    | .error e => ⟨ms, .err e, [c1]⟩
    | .ok [] => ⟨ms, .fault indexFault, [c1]⟩
    | .ok (s :: _) =>
      let ms1 := { ms with service := s }
      match ParseUUID CharacteristicUUID with
      | .error e => ⟨ms1, .err e, [c1]⟩
      | .ok msChar =>
        let c2 := Call.discoverCharacteristics ms1.service [msChar]
        match t.discoverCharacteristics ms1.service [msChar] with
        | .error e => ⟨ms1, .err e, [c1, c2]⟩
        | .ok [] => ⟨ms1, .fault indexFault, [c1, c2]⟩
        | .ok (c :: _) => ⟨{ ms1 with characteristic := c }, .nil, [c1, c2]⟩

/-- Source: `func (ms *MoistureSensor) Connect() error`. -/
def MoistureSensor.Connect (t : Transport) (ms : MoistureSensor) : Step :=
  let c0 := Call.connect ms.address
  match t.connect ms.address with
  | .error e => ⟨ms, .err e, [c0]⟩
  | .ok device =>
    let r := MoistureSensor.setupSensor t { ms with device := device }
    match r.out with
    | .nil => ⟨{ r.ms with connected := true }, .nil, c0 :: r.calls⟩
    | o => ⟨r.ms, o, c0 :: r.calls⟩

/-- Source: `func (ms *MoistureSensor) Disconnect() error`. -/
def MoistureSensor.Disconnect (t : Transport) (ms : MoistureSensor) : Step :=
  match t.disconnect ms.device with
  | some e => ⟨ms, .err e, [Call.disconnect ms.device]⟩
  | none => ⟨{ ms with connected := false }, .nil, [Call.disconnect ms.device]⟩

/-! ## Bytes and `float64` bit patterns -/

/-- Go `make([]byte, n)`: `n` zero bytes. -/
def makeBytes (n : Nat) : List Nat := List.replicate n 0

/-- Go `copy(dst, src)` on byte slices: the first `min (len dst) (len src)`
elements of `dst` are overwritten, the length of `dst` is unchanged. -/
def copyBytes (dst src : List Nat) : List Nat :=
  (src.take dst.length).map (· % 256) ++ dst.drop src.length

/-- Go `binary.LittleEndian.Uint64(b)`: `none` is the panic of the bounds
check `_ = b[7]` on a slice shorter than 8. -/
def LittleEndianUint64 (b : List Nat) : Option Nat :=
  match b with
  | b0 :: b1 :: b2 :: b3 :: b4 :: b5 :: b6 :: b7 :: _ =>
    some ((b0 ||| b1 <<< 8 ||| b2 <<< 16 ||| b3 <<< 24 ||| b4 <<< 32 |||
      b5 <<< 40 ||| b6 <<< 48 ||| b7 <<< 56) % 2 ^ 64)
  | _ => none

/-- Go `math.Float64frombits`: the `float64` whose IEEE-754 binary
representation is the `uint64` argument. -/
def Float64frombits (b : Nat) : Float64 := ⟨b % 2 ^ 64⟩

/-- Go `math.Float64bits`: the IEEE-754 binary representation of a
`float64`, as a `uint64`. -/
def Float64bits (f : Float64) : Nat := f.bits % 2 ^ 64

/-- The number an IEEE-754 binary64 pattern denotes: `none` for the
infinities and NaNs (exponent field `2047`), otherwise
`(-1)^sign * significand * 2^(exponent - 1075)`, with the hidden bit for
normal numbers and without it for subnormal ones. -/
def Float64.toRat (f : Float64) : Option ℚ :=
  let sign := f.bits / 2 ^ 63 % 2
  let e := f.bits / 2 ^ 52 % 2 ^ 11
  let m := f.bits % 2 ^ 52
  if e = 2047 then none
  else
    let mag : ℚ :=
      if e = 0 then mkRat (Int.ofNat m) (2 ^ 1074)
      else mkRat (Int.ofNat ((2 ^ 52 + m) * 2 ^ (e - 1))) (2 ^ 1074)
    some (if sign = 1 then -mag else mag)

/-- Source: `func (ms MoistureSensor) Read(result *float64) error`.
`result` is the content of the caller's variable before the call. -/
def MoistureSensor.Read (t : Transport) (ms : MoistureSensor) (result : Float64) :
    ReadStep :=
  if ms.service = emptyService then ⟨result, .err ErrDevNotSetUp, []⟩
  else if ms.characteristic = emptyChar then ⟨result, .err ErrDevNotSetUp, []⟩
  else
    let buffer := makeBytes 8
    let c0 := Call.read ms.characteristic buffer.length
    let reply := t.read ms.characteristic buffer.length
    let buffer := copyBytes buffer reply.1
    match reply.2 with
    | some e => ⟨result, .err e, [c0]⟩
    | none =>
      match LittleEndianUint64 buffer with
      | none => ⟨result, .fault "index out of range [7]", [c0]⟩
      | some rawData => ⟨Float64frombits rawData, .nil, [c0]⟩

/-! ## Discovery and construction -/

/-- Body of the callback passed to `adapter.Scan`, run on one scan result
`sr`: on a name match the captured variable `device` is overwritten. -/
def scanCallback (targetName : String) (device sr : ScanResult) : ScanResult :=
  if sr.localName = targetName then sr else device

/-- Result of `findMoistureSensor`. -/
structure FindStep where
  device : ScanResult
  err : Option Error
  calls : List Call
  deriving DecidableEq, Repr

/-- Source: `func findMoistureSensor(targetName string)`.
`adapter.Scan` blocks until the scan is stopped; `t.scan` is what it did by
the time it returned: the callback runs that completed, and its error.
The goroutine that waits on `devCh` calls `adapter.StopScan()` once a match
was signalled; the deferred `adapter.StopScan()` runs on every return after
`Enable` succeeded, and its error is only logged. -/
def findMoistureSensor (t : Transport) (targetName : String) : FindStep :=
  let device := emptyScanResult
  match t.enable with
  | some e => ⟨device, some e, [Call.enable]⟩
  | none =>
    let device := t.scan.1.foldl (scanCallback targetName) device
    let signalled :=
      if t.scan.1.any (fun sr => sr.localName = targetName) then [Call.stopScan]
      else []
    let calls := [Call.enable, Call.scan] ++ signalled ++ [Call.stopScan]
    match t.scan.2 with
    | some e => ⟨device, some e, calls⟩
    | none => ⟨device, none, calls⟩

/-- Result of `NewMoistureSensor`: the pointer (`none` is Go `nil`), the
error, and the transport calls made. -/
structure NewStep where
  sensor : Option MoistureSensor
  err : Option Error
  calls : List Call
  deriving DecidableEq, Repr

/-- Source: `func NewMoistureSensor(name string) (*MoistureSensor, error)`.
Fields left out of the composite literal take their zero value. -/
def NewMoistureSensor (t : Transport) (name : String) : NewStep :=
  let r := findMoistureSensor t name
  match r.err with
  | some e => ⟨none, some e, r.calls⟩
  | none =>
    ⟨some { name := name, address := r.device.address, device := emptyDevice,
            service := emptyService, characteristic := emptyChar,
            connected := false }, none, r.calls⟩

/-! ## Sequences of calls -/

/-- The three public methods of a sensor. -/
inductive Op where
  | connect
  | read
  | disconnect
  deriving DecidableEq, Repr

/-- One method call on a sensor, answered by the transport `c.1`.  `Read`
has a value receiver, so it cannot change the sensor.  A call that ends in
a fault leaves the assignments made before the fault. -/
def applyOp (ms : MoistureSensor) (c : Transport × Op) : MoistureSensor :=
  match c.2 with
  | Op.connect => (ms.Connect c.1).ms
  | Op.read => ms
  | Op.disconnect => (ms.Disconnect c.1).ms

/-- A sequence of method calls, each with the transport that answers it. -/
def runOps (ms : MoistureSensor) (cs : List (Transport × Op)) : MoistureSensor :=
  cs.foldl applyOp ms

/-! ## The decode of `Read` and its inverse -/

/-- The two decoding statements of `Read`:
`rawData := binary.LittleEndian.Uint64(buffer)` and
`math.Float64frombits(rawData)`. -/
def decode (buffer : List Nat) : Option Float64 :=
  match LittleEndianUint64 buffer with
  | none => none
  | some rawData => some (Float64frombits rawData)

/-- Go `binary.LittleEndian.PutUint64` into a fresh 8-byte slice. -/
def LittleEndianPutUint64 (v : Nat) : List Nat :=
  [v % 256, (v >>> 8) % 256, (v >>> 16) % 256, (v >>> 24) % 256,
   (v >>> 32) % 256, (v >>> 40) % 256, (v >>> 48) % 256, (v >>> 56) % 256]

/-- The encoding the round-trip property speaks of: the 64-bit pattern of
the value, written as 8 little-endian bytes. -/
def encode (f : Float64) : List Nat := LittleEndianPutUint64 (Float64bits f)

/-- The little-endian integer `b0 + b1*2^8 + ... + b7*2^56`. -/
def leValue (b0 b1 b2 b3 b4 b5 b6 b7 : Nat) : Nat :=
  b0 + b1 * 2 ^ 8 + b2 * 2 ^ 16 + b3 * 2 ^ 24 + b4 * 2 ^ 32 + b5 * 2 ^ 40 +
    b6 * 2 ^ 48 + b7 * 2 ^ 56

/-- Value of `ParseUUID ServiceUUID`. -/
def serviceUUIDValue : UUID := ⟨0xa255a71715594ded9a620b285f9a5c8a⟩

/-- Value of `ParseUUID CharacteristicUUID`. -/
def characteristicUUIDValue : UUID := ⟨0x6fe14a796e62491bb2e0174762f9ac9b⟩

/-- A transport whose discovery never hands out the zero value of a handle
type as a discovered service or characteristic. -/
def Transport.HandlesNonEmpty (t : Transport) : Prop :=
  (∀ d u l, t.discoverServices d u = .ok l → emptyService ∉ l) ∧
  (∀ s u l, t.discoverCharacteristics s u = .ok l → emptyChar ∉ l)

/-! ## Sample transports -/

/-- A stack on which everything succeeds: the scan reports a peripheral
named `MS1` at address `7`, discovery finds one service and one
characteristic, and the characteristic delivers the 8 bytes of `1.0`. -/
def goodTransport : Transport where
  enable := none
  scan := ([⟨⟨3⟩, "other"⟩, ⟨⟨7⟩, "MS1"⟩], none)
  stopScan := none
  connect := fun a => .ok ⟨a.id + 100⟩
  discoverServices := fun d _ => .ok [⟨d.id + 1⟩]
  discoverCharacteristics := fun s _ => .ok [⟨s.id + 1⟩]
  read := fun _ _ => ([0x00, 0x00, 0x00, 0x00, 0x00, 0x00, 0xF0, 0x3F], none)
  disconnect := fun _ => none

/-- As `goodTransport`, but service discovery finds nothing and reports no
error. -/
def noServiceTransport : Transport :=
  { goodTransport with discoverServices := fun _ _ => .ok [] }

/-- As `goodTransport`, but characteristic discovery finds nothing and
reports no error. -/
def noCharTransport : Transport :=
  { goodTransport with discoverCharacteristics := fun _ _ => .ok [] }

/-- As `goodTransport`, but the characteristic delivers only 4 bytes and
reports no error. -/
def shortReadTransport : Transport :=
  { goodTransport with read := fun _ _ => ([0x01, 0x02, 0x03, 0x04], none) }

/-- As `goodTransport`, but the characteristic delivers 4 bytes together
with an error. -/
def shortReadErrTransport : Transport :=
  { goodTransport with
      read := fun _ _ => ([0x01, 0x02, 0x03, 0x04], some (Error.other "read failed")) }

/-- As `goodTransport`, but characteristic discovery reports an error. -/
def charErrorTransport : Transport :=
  { goodTransport with
      discoverCharacteristics := fun _ _ => .error (Error.other "discovery failed") }

/-- As `goodTransport`, but the scan reports an error. -/
def scanErrorTransport : Transport :=
  { goodTransport with scan := ([], some (Error.other "scan failed")) }

/-- As `goodTransport`, but discovery hands out the zero value of both
handle types. -/
def zeroHandleTransport : Transport :=
  { goodTransport with
      discoverServices := fun _ _ => .ok [emptyService]
      discoverCharacteristics := fun _ _ => .ok [emptyChar] }

/-- A sensor as `NewMoistureSensor` builds it for the name `MS1` on
`goodTransport`. -/
def freshSensor : MoistureSensor :=
  { name := "MS1", address := ⟨7⟩, device := emptyDevice, service := emptyService,
    characteristic := emptyChar, connected := false }

/-- The sensor `freshSensor` after a successful `Connect` on
`goodTransport`. -/
def readySensor : MoistureSensor :=
  { name := "MS1", address := ⟨7⟩, device := ⟨107⟩, service := ⟨108⟩,
    characteristic := ⟨109⟩, connected := true }

/-! ## Auxiliary facts -/

theorem parseUUID_service : ParseUUID ServiceUUID = .ok serviceUUIDValue := rfl

theorem parseUUID_characteristic :
    ParseUUID CharacteristicUUID = .ok characteristicUUIDValue := rfl

theorem lor_shiftLeft_eq_add (x y k : Nat) (h : x < 2 ^ k) :
    x ||| y <<< k = x + y * 2 ^ k := by
  rw [Nat.shiftLeft_eq, Nat.lor_comm, Nat.mul_comm y, ← Nat.mul_add_lt_is_or h,
    Nat.add_comm]

theorem leValue_lt (b0 b1 b2 b3 b4 b5 b6 b7 : Nat)
    (h0 : b0 < 256) (h1 : b1 < 256) (h2 : b2 < 256) (h3 : b3 < 256)
    (h4 : b4 < 256) (h5 : b5 < 256) (h6 : b6 < 256) (h7 : b7 < 256) :
    leValue b0 b1 b2 b3 b4 b5 b6 b7 < 2 ^ 64 := by
  simp only [leValue]; omega

theorem uint64_eq_leValue (b0 b1 b2 b3 b4 b5 b6 b7 : Nat) (rest : List Nat)
    (h0 : b0 < 256) (h1 : b1 < 256) (h2 : b2 < 256) (h3 : b3 < 256)
    (h4 : b4 < 256) (h5 : b5 < 256) (h6 : b6 < 256) (h7 : b7 < 256) :
    LittleEndianUint64 (b0 :: b1 :: b2 :: b3 :: b4 :: b5 :: b6 :: b7 :: rest)
      = some (leValue b0 b1 b2 b3 b4 b5 b6 b7) := by
  simp only [LittleEndianUint64, leValue]
  rw [lor_shiftLeft_eq_add b0 b1 8 (by omega)]
  rw [lor_shiftLeft_eq_add _ b2 16 (by omega)]
  rw [lor_shiftLeft_eq_add _ b3 24 (by omega)]
  rw [lor_shiftLeft_eq_add _ b4 32 (by omega)]
  rw [lor_shiftLeft_eq_add _ b5 40 (by omega)]
  rw [lor_shiftLeft_eq_add _ b6 48 (by omega)]
  rw [lor_shiftLeft_eq_add _ b7 56 (by omega)]
  congr 1
  omega

theorem putUint64_leValue (b0 b1 b2 b3 b4 b5 b6 b7 : Nat)
    (h0 : b0 < 256) (h1 : b1 < 256) (h2 : b2 < 256) (h3 : b3 < 256)
    (h4 : b4 < 256) (h5 : b5 < 256) (h6 : b6 < 256) (h7 : b7 < 256) :
    LittleEndianPutUint64 (leValue b0 b1 b2 b3 b4 b5 b6 b7)
      = [b0, b1, b2, b3, b4, b5, b6, b7] := by
  simp only [LittleEndianPutUint64, leValue, Nat.shiftRight_eq_div_pow]
  refine congrArg₂ _ (by omega) (congrArg₂ _ (by omega) (congrArg₂ _ (by omega)
    (congrArg₂ _ (by omega) (congrArg₂ _ (by omega) (congrArg₂ _ (by omega)
    (congrArg₂ _ (by omega) (congrArg₂ _ (by omega) rfl)))))))

theorem copyBytes_length (dst src : List Nat) :
    (copyBytes dst src).length = dst.length := by
  simp only [copyBytes, List.length_append, List.length_map, List.length_take,
    List.length_drop]
  omega

theorem uint64_of_length (b : List Nat) (h : b.length = 8) :
    ∃ v, LittleEndianUint64 b = some v := by
  match b, h with
  | [_, _, _, _, _, _, _, _], _ => exact ⟨_, rfl⟩

/-- The buffer of `Read` after the copy always holds 8 bytes, so the
bounds check of `Uint64` cannot fail. -/
theorem uint64_copy_isSome (data : List Nat) :
    ∃ v, LittleEndianUint64 (copyBytes (makeBytes 8) data) = some v :=
  uint64_of_length _ (by rw [copyBytes_length]; rfl)

/-- A full 8-byte delivery replaces the whole buffer. -/
theorem copyBytes_full (b0 b1 b2 b3 b4 b5 b6 b7 : Nat)
    (h0 : b0 < 256) (h1 : b1 < 256) (h2 : b2 < 256) (h3 : b3 < 256)
    (h4 : b4 < 256) (h5 : b5 < 256) (h6 : b6 < 256) (h7 : b7 < 256) :
    copyBytes (makeBytes 8) [b0, b1, b2, b3, b4, b5, b6, b7]
      = [b0, b1, b2, b3, b4, b5, b6, b7] := by
  simp [copyBytes, makeBytes, List.replicate, Nat.mod_eq_of_lt, *]

/-! ### The six ways `Connect` can end -/

theorem connect_link_error (t : Transport) (ms : MoistureSensor) (e : Error)
    (h1 : t.connect ms.address = .error e) :
    ms.Connect t = ⟨ms, Outcome.err e, [Call.connect ms.address]⟩ := by
  simp only [MoistureSensor.Connect, h1]

theorem connect_services_error (t : Transport) (ms : MoistureSensor) (d : Device)
    (e : Error) (h1 : t.connect ms.address = .ok d)
    (h2 : t.discoverServices d [serviceUUIDValue] = .error e) :
    ms.Connect t = ⟨{ ms with device := d }, Outcome.err e,
      [Call.connect ms.address, Call.discoverServices d [serviceUUIDValue]]⟩ := by
  simp only [MoistureSensor.Connect, MoistureSensor.setupSensor, h1, parseUUID_service, h2]

theorem connect_services_empty (t : Transport) (ms : MoistureSensor) (d : Device)
    (h1 : t.connect ms.address = .ok d)
    (h2 : t.discoverServices d [serviceUUIDValue] = .ok []) :
    ms.Connect t = ⟨{ ms with device := d }, Outcome.fault indexFault,
      [Call.connect ms.address, Call.discoverServices d [serviceUUIDValue]]⟩ := by
  simp only [MoistureSensor.Connect, MoistureSensor.setupSensor, h1, parseUUID_service, h2]

theorem connect_characteristics_error (t : Transport) (ms : MoistureSensor)
    (d : Device) (s : DeviceService) (ss : List DeviceService) (e : Error)
    (h1 : t.connect ms.address = .ok d)
    (h2 : t.discoverServices d [serviceUUIDValue] = .ok (s :: ss))
    (h3 : t.discoverCharacteristics s [characteristicUUIDValue] = .error e) :
    ms.Connect t = ⟨{ ms with device := d, service := s }, Outcome.err e,
      [Call.connect ms.address, Call.discoverServices d [serviceUUIDValue],
       Call.discoverCharacteristics s [characteristicUUIDValue]]⟩ := by
  simp only [MoistureSensor.Connect, MoistureSensor.setupSensor, h1, parseUUID_service, h2,
    parseUUID_characteristic, h3]

theorem connect_characteristics_empty (t : Transport) (ms : MoistureSensor)
    (d : Device) (s : DeviceService) (ss : List DeviceService)
    (h1 : t.connect ms.address = .ok d)
    (h2 : t.discoverServices d [serviceUUIDValue] = .ok (s :: ss))
    (h3 : t.discoverCharacteristics s [characteristicUUIDValue] = .ok []) :
    ms.Connect t = ⟨{ ms with device := d, service := s }, Outcome.fault indexFault,
      [Call.connect ms.address, Call.discoverServices d [serviceUUIDValue],
       Call.discoverCharacteristics s [characteristicUUIDValue]]⟩ := by
  simp only [MoistureSensor.Connect, MoistureSensor.setupSensor, h1, parseUUID_service, h2,
    parseUUID_characteristic, h3]

theorem connect_success (t : Transport) (ms : MoistureSensor)
    (d : Device) (s : DeviceService) (ss : List DeviceService)
    (c : DeviceCharacteristic) (cs : List DeviceCharacteristic)
    (h1 : t.connect ms.address = .ok d)
    (h2 : t.discoverServices d [serviceUUIDValue] = .ok (s :: ss))
    (h3 : t.discoverCharacteristics s [characteristicUUIDValue] = .ok (c :: cs)) :
    ms.Connect t = ⟨{ ms with device := d, service := s, characteristic := c,
                              connected := true }, Outcome.nil,
      [Call.connect ms.address, Call.discoverServices d [serviceUUIDValue],
       Call.discoverCharacteristics s [characteristicUUIDValue]]⟩ := by
  simp only [MoistureSensor.Connect, MoistureSensor.setupSensor, h1, parseUUID_service, h2,
    parseUUID_characteristic, h3]

/-- The answers of the transport determine which of the six ways applies. -/
theorem connect_cases (t : Transport) (ms : MoistureSensor) :
    (∃ e, t.connect ms.address = .error e) ∨
    (∃ d e, t.connect ms.address = .ok d ∧
      t.discoverServices d [serviceUUIDValue] = .error e) ∨
    (∃ d, t.connect ms.address = .ok d ∧
      t.discoverServices d [serviceUUIDValue] = .ok []) ∨
    (∃ d s ss e, t.connect ms.address = .ok d ∧
      t.discoverServices d [serviceUUIDValue] = .ok (s :: ss) ∧
      t.discoverCharacteristics s [characteristicUUIDValue] = .error e) ∨
    (∃ d s ss, t.connect ms.address = .ok d ∧
      t.discoverServices d [serviceUUIDValue] = .ok (s :: ss) ∧
      t.discoverCharacteristics s [characteristicUUIDValue] = .ok []) ∨
    (∃ d s ss c cs, t.connect ms.address = .ok d ∧
      t.discoverServices d [serviceUUIDValue] = .ok (s :: ss) ∧
      t.discoverCharacteristics s [characteristicUUIDValue] = .ok (c :: cs)) := by
  cases h1 : t.connect ms.address with
  | error e => exact Or.inl ⟨e, rfl⟩
  | ok d =>
    cases h2 : t.discoverServices d [serviceUUIDValue] with
    | error e => exact Or.inr (Or.inl ⟨d, e, rfl, h2⟩)
    | ok l =>
      cases l with
      | nil => exact Or.inr (Or.inr (Or.inl ⟨d, rfl, h2⟩))
      | cons s ss =>
        cases h3 : t.discoverCharacteristics s [characteristicUUIDValue] with
        | error e => exact Or.inr (Or.inr (Or.inr (Or.inl ⟨d, s, ss, e, rfl, h2, h3⟩)))
        | ok l2 =>
          cases l2 with
          | nil => exact Or.inr (Or.inr (Or.inr (Or.inr (Or.inl ⟨d, s, ss, rfl, h2, h3⟩))))
          | cons c cs =>
            exact Or.inr (Or.inr (Or.inr (Or.inr (Or.inr ⟨d, s, ss, c, cs, rfl, h2, h3⟩))))

theorem disconnect_error (t : Transport) (ms : MoistureSensor) (e : Error)
    (h : t.disconnect ms.device = some e) :
    ms.Disconnect t = ⟨ms, Outcome.err e, [Call.disconnect ms.device]⟩ := by
  simp only [MoistureSensor.Disconnect, h]

theorem disconnect_success (t : Transport) (ms : MoistureSensor)
    (h : t.disconnect ms.device = none) :
    ms.Disconnect t
      = ⟨{ ms with connected := false }, Outcome.nil, [Call.disconnect ms.device]⟩ := by
  simp only [MoistureSensor.Disconnect, h]

theorem connect_nil_connected (t : Transport) (ms : MoistureSensor)
    (hc : (ms.Connect t).out = Outcome.nil) : (ms.Connect t).ms.connected = true := by
  rcases connect_cases t ms with ⟨e, h1⟩ | ⟨d, e, h1, h2⟩ | ⟨d, h1, h2⟩ |
    ⟨d, s, ss, e, h1, h2, h3⟩ | ⟨d, s, ss, h1, h2, h3⟩ | ⟨d, s, ss, c, cs, h1, h2, h3⟩
  · rw [connect_link_error t ms e h1] at hc; simp at hc
  · rw [connect_services_error t ms d e h1 h2] at hc; simp at hc
  · rw [connect_services_empty t ms d h1 h2] at hc; simp at hc
  · rw [connect_characteristics_error t ms d s ss e h1 h2 h3] at hc; simp at hc
  · rw [connect_characteristics_empty t ms d s ss h1 h2 h3] at hc; simp at hc
  · rw [connect_success t ms d s ss c cs h1 h2 h3]

theorem disconnect_nil_state (t : Transport) (ms : MoistureSensor)
    (hd : (ms.Disconnect t).out = Outcome.nil) :
    (ms.Disconnect t).ms = { ms with connected := false } := by
  cases h : t.disconnect ms.device with
  | some e => rw [disconnect_error t ms e h] at hd; simp at hd
  | none => rw [disconnect_success t ms h]

theorem read_of_transport_error (t : Transport) (ms : MoistureSensor)
    (result : Float64) (e : Error) (hs : ms.service ≠ emptyService)
    (hc : ms.characteristic ≠ emptyChar) (he : (t.read ms.characteristic 8).2 = some e) :
    ms.Read t result = ⟨result, Outcome.err e, [Call.read ms.characteristic 8]⟩ := by
  have hlen : (makeBytes 8).length = 8 := rfl
  unfold MoistureSensor.Read
  simp only [hs, hc, if_false, hlen, he]

theorem read_of_transport_ok (t : Transport) (ms : MoistureSensor)
    (result : Float64) (v : Nat) (hs : ms.service ≠ emptyService)
    (hc : ms.characteristic ≠ emptyChar) (he : (t.read ms.characteristic 8).2 = none)
    (hv : LittleEndianUint64 (copyBytes (makeBytes 8) (t.read ms.characteristic 8).1)
      = some v) :
    ms.Read t result
      = ⟨Float64frombits v, Outcome.nil, [Call.read ms.characteristic 8]⟩ := by
  have hlen : (makeBytes 8).length = 8 := rfl
  unfold MoistureSensor.Read
  simp only [hs, hc, if_false, hlen, he, hv]

/-! ## Read -/

/-- Every call of `Read` returns: it ends with `nil` or with an error, and
never in a fault. -/
theorem read_never_faults (t : Transport) (ms : MoistureSensor) (result : Float64) :
    ∀ msg, (ms.Read t result).out ≠ Outcome.fault msg := by
  intro msg
  by_cases hs : ms.service = emptyService
  · unfold MoistureSensor.Read
    simp [hs, ErrDevNotSetUp]
  · by_cases hc : ms.characteristic = emptyChar
    · unfold MoistureSensor.Read
      simp [hs, hc, ErrDevNotSetUp]
    · obtain ⟨v, hv⟩ := uint64_copy_isSome (t.read ms.characteristic 8).1
      cases he : (t.read ms.characteristic 8).2 with
      | some e => simp [read_of_transport_error t ms result e hs hc he]
      | none => simp [read_of_transport_ok t ms result v hs hc he hv]

/-- C1: a sensor whose service handle or characteristic handle is unset, in
particular every sensor just returned by `NewMoistureSensor`, gets
`ErrDevNotSetUp` from `Read`; no transport call is made and the caller's
result variable keeps its content. -/
theorem read_unset_returns_ErrDevNotSetUp (t : Transport) (ms : MoistureSensor)
    (result : Float64) :
    ((ms.service = emptyService ∨ ms.characteristic = emptyChar) →
      ms.Read t result = ⟨result, Outcome.err ErrDevNotSetUp, []⟩) ∧
    (∀ (t0 : Transport) (name : String),
      (NewMoistureSensor t0 name).sensor = some ms →
      ms.Read t result = ⟨result, Outcome.err ErrDevNotSetUp, []⟩) := by
  have key : (ms.service = emptyService ∨ ms.characteristic = emptyChar) →
      ms.Read t result = ⟨result, Outcome.err ErrDevNotSetUp, []⟩ := by
    intro h
    unfold MoistureSensor.Read
    rcases h with h | h
    · simp [h]
    · by_cases hs : ms.service = emptyService <;> simp [hs, h]
  refine ⟨key, ?_⟩
  intro t0 name hnew
  apply key
  left
  unfold NewMoistureSensor at hnew
  cases he : (findMoistureSensor t0 name).err with
  | some e => simp [he] at hnew
  | none =>
    simp [he] at hnew
    rw [← hnew]

theorem read_unset_returns_ErrDevNotSetUp_witness :
    freshSensor.service = emptyService ∧
    (NewMoistureSensor goodTransport "MS1").sensor = some freshSensor ∧
    freshSensor.Read goodTransport ⟨5⟩ = ⟨⟨5⟩, Outcome.err ErrDevNotSetUp, []⟩ :=
  ⟨by decide, by decide,
    (read_unset_returns_ErrDevNotSetUp goodTransport freshSensor ⟨5⟩).1 (Or.inl (by decide))⟩

/-- C3: on a set-up sensor, when the transport fills the 8-byte buffer with
`b0 .. b7` and reports no error, `Read` succeeds after exactly one transport
read and stores the `float64` whose bit pattern is the little-endian
integer `b0 + b1*2^8 + ... + b7*2^56`; for the bytes
`00 00 00 00 00 00 F0 3F` the pattern is `0x3FF0000000000000`, which
denotes `1.0`. -/
theorem read_decodes_little_endian (t : Transport) (ms : MoistureSensor)
    (result : Float64) (b0 b1 b2 b3 b4 b5 b6 b7 : Nat)
    (hs : ms.service ≠ emptyService) (hc : ms.characteristic ≠ emptyChar)
    (hr : t.read ms.characteristic 8 = ([b0, b1, b2, b3, b4, b5, b6, b7], none))
    (h0 : b0 < 256) (h1 : b1 < 256) (h2 : b2 < 256) (h3 : b3 < 256)
    (h4 : b4 < 256) (h5 : b5 < 256) (h6 : b6 < 256) (h7 : b7 < 256) :
    (ms.Read t result).out = Outcome.nil ∧
    (ms.Read t result).calls = [Call.read ms.characteristic 8] ∧
    (ms.Read t result).result = Float64frombits (leValue b0 b1 b2 b3 b4 b5 b6 b7) ∧
    Float64bits (ms.Read t result).result
      = b0 + b1 * 2 ^ 8 + b2 * 2 ^ 16 + b3 * 2 ^ 24 + b4 * 2 ^ 32 + b5 * 2 ^ 40 +
          b6 * 2 ^ 48 + b7 * 2 ^ 56 ∧
    ([b0, b1, b2, b3, b4, b5, b6, b7] = [0x00, 0x00, 0x00, 0x00, 0x00, 0x00, 0xF0, 0x3F] →
      Float64bits (ms.Read t result).result = 0x3FF0000000000000 ∧
      (ms.Read t result).result.toRat = some 1) := by
  have hread : ms.Read t result
      = ⟨Float64frombits (leValue b0 b1 b2 b3 b4 b5 b6 b7), Outcome.nil,
          [Call.read ms.characteristic 8]⟩ := by
    have hu := uint64_eq_leValue b0 b1 b2 b3 b4 b5 b6 b7 [] h0 h1 h2 h3 h4 h5 h6 h7
    have hcp := copyBytes_full b0 b1 b2 b3 b4 b5 b6 b7 h0 h1 h2 h3 h4 h5 h6 h7
    have hlen : (makeBytes 8).length = 8 := rfl
    unfold MoistureSensor.Read
    simp only [hs, hc, if_false, hlen, hr, hcp, hu]
  have hlt := leValue_lt b0 b1 b2 b3 b4 b5 b6 b7 h0 h1 h2 h3 h4 h5 h6 h7
  have hbits : Float64bits (ms.Read t result).result
      = leValue b0 b1 b2 b3 b4 b5 b6 b7 := by
    rw [hread]
    simp only [Float64bits, Float64frombits, Nat.mod_mod]
    exact Nat.mod_eq_of_lt hlt
  refine ⟨by rw [hread], by rw [hread], by rw [hread], hbits, ?_⟩
  intro hb
  simp only [List.cons.injEq, and_true] at hb
  obtain ⟨e0, e1, e2, e3, e4, e5, e6, e7⟩ := hb
  subst e0 e1 e2 e3 e4 e5 e6 e7
  refine ⟨by rw [hbits]; rfl, ?_⟩
  rw [hread]
  norm_num [Float64.toRat, Float64frombits, leValue]

theorem read_decodes_little_endian_witness :
    readySensor.service ≠ emptyService ∧ readySensor.characteristic ≠ emptyChar ∧
    goodTransport.read readySensor.characteristic 8
      = ([0x00, 0x00, 0x00, 0x00, 0x00, 0x00, 0xF0, 0x3F], none) ∧
    (readySensor.Read goodTransport ⟨5⟩).out = Outcome.nil ∧
    Float64bits (readySensor.Read goodTransport ⟨5⟩).result = 0x3FF0000000000000 ∧
    (readySensor.Read goodTransport ⟨5⟩).result.toRat = some 1 :=
  have h := read_decodes_little_endian goodTransport readySensor ⟨5⟩
    0x00 0x00 0x00 0x00 0x00 0x00 0xF0 0x3F (by decide) (by decide) rfl
    (by decide) (by decide) (by decide) (by decide) (by decide) (by decide)
    (by decide) (by decide)
  ⟨by decide, by decide, rfl, h.1, (h.2.2.2.2 rfl).1, (h.2.2.2.2 rfl).2⟩

/-- C2 (counterexample): after a successful `Connect` and a successful
`Disconnect` on `goodTransport` the handles are still the discovered ones
and `Read` performs a transport read and succeeds. -/
theorem disconnect_invalidates_handles_counterexample :
    (freshSensor.Connect goodTransport).out = Outcome.nil ∧
    (freshSensor.Connect goodTransport).ms = readySensor ∧
    (readySensor.Disconnect goodTransport).out = Outcome.nil ∧
    (readySensor.Disconnect goodTransport).ms.connected = false ∧
    (readySensor.Disconnect goodTransport).ms.service = ⟨108⟩ ∧
    (readySensor.Disconnect goodTransport).ms.service ≠ emptyService ∧
    (readySensor.Disconnect goodTransport).ms.characteristic ≠ emptyChar ∧
    (readySensor.Disconnect goodTransport).ms.Read goodTransport ⟨5⟩
      = ⟨⟨0x3FF0000000000000⟩, Outcome.nil, [Call.read ⟨109⟩ 8]⟩ ∧
    ((readySensor.Disconnect goodTransport).ms.Read goodTransport ⟨5⟩).out
      ≠ Outcome.err ErrDevNotSetUp := by
  decide

/-- C2 (amended): after a successful `Connect`, a successful `Disconnect`
changes `connected` from true to false and leaves the service and
characteristic handles (and device, name, address) as `Connect` stored
them; a `Read` made after it therefore behaves exactly as a `Read` made
before it: with both handles non-empty it passes both not-set-up checks,
issues exactly one transport read on the retained characteristic, never
ends in a fault, returns `nil` when that read reports no error, and
otherwise returns exactly the error the transport reported, with the
result unmodified. -/
theorem disconnect_keeps_handles (t1 t2 : Transport) (ms : MoistureSensor)
    (hc : (ms.Connect t1).out = Outcome.nil)
    (hd : ((ms.Connect t1).ms.Disconnect t2).out = Outcome.nil) :
    (ms.Connect t1).ms.connected = true ∧
    ((ms.Connect t1).ms.Disconnect t2).ms
      = { (ms.Connect t1).ms with connected := false } ∧
    ((ms.Connect t1).ms.Disconnect t2).ms.connected = false ∧
    ((ms.Connect t1).ms.Disconnect t2).ms.service = (ms.Connect t1).ms.service ∧
    ((ms.Connect t1).ms.Disconnect t2).ms.characteristic
      = (ms.Connect t1).ms.characteristic ∧
    (∀ (t3 : Transport) (r : Float64),
      ((ms.Connect t1).ms.Disconnect t2).ms.Read t3 r = (ms.Connect t1).ms.Read t3 r) ∧
    (∀ (t3 : Transport) (r : Float64),
      (ms.Connect t1).ms.service ≠ emptyService →
      (ms.Connect t1).ms.characteristic ≠ emptyChar →
      (((ms.Connect t1).ms.Disconnect t2).ms.Read t3 r).calls
        = [Call.read (ms.Connect t1).ms.characteristic 8] ∧
      (∀ msg, (((ms.Connect t1).ms.Disconnect t2).ms.Read t3 r).out
        ≠ Outcome.fault msg) ∧
      ((t3.read (ms.Connect t1).ms.characteristic 8).2 = none →
        (((ms.Connect t1).ms.Disconnect t2).ms.Read t3 r).out = Outcome.nil) ∧
      (∀ e, (t3.read (ms.Connect t1).ms.characteristic 8).2 = some e →
        (((ms.Connect t1).ms.Disconnect t2).ms.Read t3 r).out = Outcome.err e ∧
        (((ms.Connect t1).ms.Disconnect t2).ms.Read t3 r).result = r)) := by
  have hconn : (ms.Connect t1).ms.connected = true := connect_nil_connected t1 ms hc
  have hdis : ((ms.Connect t1).ms.Disconnect t2).ms
      = { (ms.Connect t1).ms with connected := false } :=
    disconnect_nil_state t2 _ hd
  have hread : ∀ (t3 : Transport) (r : Float64),
      ((ms.Connect t1).ms.Disconnect t2).ms.Read t3 r = (ms.Connect t1).ms.Read t3 r := by
    intro t3 r
    rw [hdis]
    rfl
  refine ⟨hconn, hdis, by rw [hdis], by rw [hdis], by rw [hdis], hread, ?_⟩
  intro t3 r hs hch
  rw [hread]
  obtain ⟨v, hv⟩ := uint64_copy_isSome (t3.read (ms.Connect t1).ms.characteristic 8).1
  refine ⟨?_, read_never_faults t3 _ r, ?_, ?_⟩
  · cases he : (t3.read (ms.Connect t1).ms.characteristic 8).2 with
    | some e => rw [read_of_transport_error t3 _ r e hs hch he]
    | none => rw [read_of_transport_ok t3 _ r v hs hch he hv]
  · intro he
    rw [read_of_transport_ok t3 _ r v hs hch he hv]
  · intro e he
    rw [read_of_transport_error t3 _ r e hs hch he]
    exact ⟨rfl, rfl⟩

theorem disconnect_keeps_handles_witness :
    (freshSensor.Connect goodTransport).out = Outcome.nil ∧
    ((freshSensor.Connect goodTransport).ms.Disconnect goodTransport).out = Outcome.nil ∧
    ((freshSensor.Connect goodTransport).ms.Disconnect goodTransport).ms.connected = false ∧
    ((freshSensor.Connect goodTransport).ms.Disconnect goodTransport).ms.service
      = (freshSensor.Connect goodTransport).ms.service ∧
    (((freshSensor.Connect goodTransport).ms.Disconnect goodTransport).ms.Read
      goodTransport ⟨5⟩).out = Outcome.nil ∧
    (((freshSensor.Connect goodTransport).ms.Disconnect goodTransport).ms.Read
      shortReadErrTransport ⟨5⟩).out = Outcome.err (Error.other "read failed") :=
  have h := disconnect_keeps_handles goodTransport goodTransport freshSensor
    (by decide) (by decide)
  ⟨by decide, by decide, h.2.2.1, h.2.2.2.1,
    (h.2.2.2.2.2.2 goodTransport ⟨5⟩ (by decide) (by decide)).2.2.1 rfl,
    ((h.2.2.2.2.2.2 shortReadErrTransport ⟨5⟩ (by decide) (by decide)).2.2.2
      (Error.other "read failed") rfl).1⟩

/-- C4: the decode of `Read` round-trips on 8-byte inputs: it returns a
value, writing that value's 64-bit pattern as 8 little-endian bytes gives
the input back, and so the decode is injective on 8-byte inputs. -/
theorem decode_encode_roundtrip (b : List Nat) (hlen : b.length = 8)
    (hb : ∀ x ∈ b, x < 256) :
    (∃ f, decode b = some f ∧ encode f = b) ∧
    (∀ b2 : List Nat, b2.length = 8 → (∀ x ∈ b2, x < 256) →
      decode b = decode b2 → b = b2) := by
  have rt : ∀ c : List Nat, c.length = 8 → (∀ x ∈ c, x < 256) →
      ∃ f, decode c = some f ∧ encode f = c := by
    intro c hc hx
    match c, hc with
    | [b0, b1, b2, b3, b4, b5, b6, b7], _ =>
      simp only [List.mem_cons, List.mem_singleton, List.not_mem_nil, or_false,
        forall_eq_or_imp, forall_eq] at hx
      obtain ⟨h0, h1, h2, h3, h4, h5, h6, h7⟩ := hx
      refine ⟨Float64frombits (leValue b0 b1 b2 b3 b4 b5 b6 b7), ?_, ?_⟩
      · simp only [decode, uint64_eq_leValue b0 b1 b2 b3 b4 b5 b6 b7 [] h0 h1 h2 h3 h4 h5 h6 h7]
      · have hlt := leValue_lt b0 b1 b2 b3 b4 b5 b6 b7 h0 h1 h2 h3 h4 h5 h6 h7
        simp only [encode, Float64bits, Float64frombits, Nat.mod_mod]
        rw [Nat.mod_eq_of_lt hlt]
        exact putUint64_leValue b0 b1 b2 b3 b4 b5 b6 b7 h0 h1 h2 h3 h4 h5 h6 h7
  refine ⟨rt b hlen hb, ?_⟩
  intro b2 hlen2 hb2 heq
  obtain ⟨f, hf, hef⟩ := rt b hlen hb
  obtain ⟨g, hg, heg⟩ := rt b2 hlen2 hb2
  rw [hf, hg] at heq
  have hfg : f = g := Option.some.inj heq
  rw [← hef, ← heg, hfg]

theorem decode_encode_roundtrip_witness :
    decode [0x00, 0x00, 0x00, 0x00, 0x00, 0x00, 0xF0, 0x3F] = some ⟨0x3FF0000000000000⟩ ∧
    ∃ f, decode [0x00, 0x00, 0x00, 0x00, 0x00, 0x00, 0xF0, 0x3F] = some f ∧
      encode f = [0x00, 0x00, 0x00, 0x00, 0x00, 0x00, 0xF0, 0x3F] :=
  ⟨by decide,
    (decode_encode_roundtrip [0x00, 0x00, 0x00, 0x00, 0x00, 0x00, 0xF0, 0x3F] rfl
      (by decide)).1⟩

/-- C5 (counterexample): on the set-up sensor `readySensor` the transport
delivers 4 bytes and no error; `Read` returns `nil` and overwrites the
result with the value decoded from the 4 bytes followed by 4 zero bytes. -/
theorem read_short_buffer_counterexample :
    readySensor.service ≠ emptyService ∧ readySensor.characteristic ≠ emptyChar ∧
    shortReadTransport.read readySensor.characteristic 8 = ([0x01, 0x02, 0x03, 0x04], none) ∧
    readySensor.Read shortReadTransport ⟨5⟩
      = ⟨⟨0x04030201⟩, Outcome.nil, [Call.read ⟨109⟩ 8]⟩ ∧
    (readySensor.Read shortReadTransport ⟨5⟩).result ≠ ⟨5⟩ := by
  decide

/-- C5 (amended): on a set-up sensor, when the transport read reports an
error, `Read` returns exactly that error and leaves the result unmodified,
however many bytes were delivered; the number of delivered bytes is not
checked, so without a transport error `Read` returns `nil` and stores the
decode of the 8-byte buffer, in which the bytes not delivered are zero. -/
theorem read_surfaces_transport_error (t : Transport) (ms : MoistureSensor)
    (result : Float64) (hs : ms.service ≠ emptyService)
    (hc : ms.characteristic ≠ emptyChar) :
    (∀ e, (t.read ms.characteristic 8).2 = some e →
      ms.Read t result = ⟨result, Outcome.err e, [Call.read ms.characteristic 8]⟩) ∧
    ((t.read ms.characteristic 8).2 = none →
      (ms.Read t result).out = Outcome.nil ∧
      decode (copyBytes (makeBytes 8) (t.read ms.characteristic 8).1)
        = some (ms.Read t result).result) := by
  obtain ⟨v, hv⟩ := uint64_copy_isSome (t.read ms.characteristic 8).1
  constructor
  · intro e he
    exact read_of_transport_error t ms result e hs hc he
  · intro he
    rw [read_of_transport_ok t ms result v hs hc he hv]
    simp only [decode, hv, and_self]

theorem read_surfaces_transport_error_witness :
    readySensor.service ≠ emptyService ∧ readySensor.characteristic ≠ emptyChar ∧
    (shortReadErrTransport.read readySensor.characteristic 8).1.length = 4 ∧
    (shortReadErrTransport.read readySensor.characteristic 8).2
      = some (Error.other "read failed") ∧
    readySensor.Read shortReadErrTransport ⟨5⟩
      = ⟨⟨5⟩, Outcome.err (Error.other "read failed"), [Call.read ⟨109⟩ 8]⟩ :=
  ⟨by decide, by decide, by decide, by decide,
    (read_surfaces_transport_error shortReadErrTransport readySensor ⟨5⟩
      (by decide) (by decide)).1 (Error.other "read failed") rfl⟩

/-! ## Connect, Disconnect and construction -/

/-- C6 (the code at the failing inputs): when service discovery, or
characteristic discovery, returns no error and an empty list,
`setupSensor` and `Connect` end in the index-out-of-range fault of
`services[0]` resp. `chars[0]`; no error value is returned. -/
theorem setupSensor_empty_discovery_faults :
    noServiceTransport.discoverServices ⟨107⟩ [serviceUUIDValue] = .ok [] ∧
    (MoistureSensor.setupSensor noServiceTransport { freshSensor with device := ⟨107⟩ }).out
      = Outcome.fault indexFault ∧
    (freshSensor.Connect noServiceTransport).out = Outcome.fault indexFault ∧
    noCharTransport.discoverCharacteristics ⟨108⟩ [characteristicUUIDValue] = .ok [] ∧
    (MoistureSensor.setupSensor noCharTransport { freshSensor with device := ⟨107⟩ }).out
      = Outcome.fault indexFault ∧
    (freshSensor.Connect noCharTransport).out = Outcome.fault indexFault :=
  ⟨rfl, by decide, by decide, rfl, by decide, by decide⟩

/-- C7: on a sensor with `connected = false`, an error of the link
establishment, of service discovery or of characteristic discovery is
returned by `Connect` unchanged and `connected` is still false; and
`connected` is true after `Connect` only if the link and both discovery
steps succeeded (and `Connect` returned `nil`). -/
theorem connect_error_keeps_disconnected (t : Transport) (ms : MoistureSensor)
    (h : ms.connected = false) :
    (∀ e, t.connect ms.address = .error e →
      (ms.Connect t).out = Outcome.err e ∧ (ms.Connect t).ms.connected = false) ∧
    (∀ d e, t.connect ms.address = .ok d →
      t.discoverServices d [serviceUUIDValue] = .error e →
      (ms.Connect t).out = Outcome.err e ∧ (ms.Connect t).ms.connected = false) ∧
    (∀ d s ss e, t.connect ms.address = .ok d →
      t.discoverServices d [serviceUUIDValue] = .ok (s :: ss) →
      t.discoverCharacteristics s [characteristicUUIDValue] = .error e →
      (ms.Connect t).out = Outcome.err e ∧ (ms.Connect t).ms.connected = false) ∧
    ((ms.Connect t).ms.connected = true →
      (ms.Connect t).out = Outcome.nil ∧
      ∃ d s ss c cs, t.connect ms.address = .ok d ∧
        t.discoverServices d [serviceUUIDValue] = .ok (s :: ss) ∧
        t.discoverCharacteristics s [characteristicUUIDValue] = .ok (c :: cs)) := by
  refine ⟨?_, ?_, ?_, ?_⟩
  · intro e h1
    rw [connect_link_error t ms e h1]
    exact ⟨rfl, h⟩
  · intro d e h1 h2
    rw [connect_services_error t ms d e h1 h2]
    exact ⟨rfl, h⟩
  · intro d s ss e h1 h2 h3
    rw [connect_characteristics_error t ms d s ss e h1 h2 h3]
    exact ⟨rfl, h⟩
  · intro hconn
    rcases connect_cases t ms with ⟨e, h1⟩ | ⟨d, e, h1, h2⟩ | ⟨d, h1, h2⟩ |
      ⟨d, s, ss, e, h1, h2, h3⟩ | ⟨d, s, ss, h1, h2, h3⟩ | ⟨d, s, ss, c, cs, h1, h2, h3⟩
    · rw [connect_link_error t ms e h1] at hconn
      simp [h] at hconn
    · rw [connect_services_error t ms d e h1 h2] at hconn
      simp [h] at hconn
    · rw [connect_services_empty t ms d h1 h2] at hconn
      simp [h] at hconn
    · rw [connect_characteristics_error t ms d s ss e h1 h2 h3] at hconn
      simp [h] at hconn
    · rw [connect_characteristics_empty t ms d s ss h1 h2 h3] at hconn
      simp [h] at hconn
    · rw [connect_success t ms d s ss c cs h1 h2 h3]
      exact ⟨rfl, d, s, ss, c, cs, h1, h2, h3⟩

theorem connect_error_keeps_disconnected_witness :
    freshSensor.connected = false ∧
    charErrorTransport.connect freshSensor.address = .ok ⟨107⟩ ∧
    charErrorTransport.discoverServices ⟨107⟩ [serviceUUIDValue] = .ok [⟨108⟩] ∧
    charErrorTransport.discoverCharacteristics ⟨108⟩ [characteristicUUIDValue]
      = .error (Error.other "discovery failed") ∧
    (freshSensor.Connect charErrorTransport).out
      = Outcome.err (Error.other "discovery failed") ∧
    (freshSensor.Connect charErrorTransport).ms.connected = false ∧
    (freshSensor.Connect goodTransport).ms.connected = true ∧
    (freshSensor.Connect goodTransport).out = Outcome.nil :=
  have h := connect_error_keeps_disconnected charErrorTransport freshSensor rfl
  have g := connect_error_keeps_disconnected goodTransport freshSensor rfl
  ⟨rfl, rfl, rfl, rfl, (h.2.2.1 ⟨107⟩ ⟨108⟩ [] _ rfl rfl rfl).1,
    (h.2.2.1 ⟨107⟩ ⟨108⟩ [] _ rfl rfl rfl).2, by decide, (g.2.2.2 (by decide)).1⟩

/-- C8 (counterexample): the sensor built by `NewMoistureSensor`, connected
and then disconnected on `goodTransport`, has non-empty handles while
`connected` is false. -/
theorem handles_iff_connected_counterexample :
    (NewMoistureSensor goodTransport "MS1").sensor = some freshSensor ∧
    runOps freshSensor [(goodTransport, Op.connect), (goodTransport, Op.disconnect)]
      = { readySensor with connected := false } ∧
    ¬ (((runOps freshSensor
          [(goodTransport, Op.connect), (goodTransport, Op.disconnect)]).service
            ≠ emptyService ∧
        (runOps freshSensor
          [(goodTransport, Op.connect), (goodTransport, Op.disconnect)]).characteristic
            ≠ emptyChar) ↔
       (runOps freshSensor
          [(goodTransport, Op.connect), (goodTransport, Op.disconnect)]).connected
            = true) := by
  decide

/-- One direction of the handle invariant is kept by `Connect`. -/
theorem connect_preserves_inv (t : Transport) (ms : MoistureSensor)
    (ht : t.HandlesNonEmpty)
    (inv : ms.connected = true →
      ms.service ≠ emptyService ∧ ms.characteristic ≠ emptyChar) :
    (ms.Connect t).ms.connected = true →
      (ms.Connect t).ms.service ≠ emptyService ∧
      (ms.Connect t).ms.characteristic ≠ emptyChar := by
  rcases connect_cases t ms with ⟨e, h1⟩ | ⟨d, e, h1, h2⟩ | ⟨d, h1, h2⟩ |
    ⟨d, s, ss, e, h1, h2, h3⟩ | ⟨d, s, ss, h1, h2, h3⟩ | ⟨d, s, ss, c, cs, h1, h2, h3⟩
  · rw [connect_link_error t ms e h1]; exact inv
  · rw [connect_services_error t ms d e h1 h2]; exact inv
  · rw [connect_services_empty t ms d h1 h2]; exact inv
  · rw [connect_characteristics_error t ms d s ss e h1 h2 h3]
    intro hc
    have hs : s ≠ emptyService := fun hse =>
      ht.1 d _ _ h2 (by rw [← hse]; exact List.mem_cons_self _ _)
    exact ⟨hs, (inv hc).2⟩
  · rw [connect_characteristics_empty t ms d s ss h1 h2 h3]
    intro hc
    have hs : s ≠ emptyService := fun hse =>
      ht.1 d _ _ h2 (by rw [← hse]; exact List.mem_cons_self _ _)
    exact ⟨hs, (inv hc).2⟩
  · rw [connect_success t ms d s ss c cs h1 h2 h3]
    intro _
    have hs : s ≠ emptyService := fun hse =>
      ht.1 d _ _ h2 (by rw [← hse]; exact List.mem_cons_self _ _)
    have hc : c ≠ emptyChar := fun hce =>
      ht.2 s _ _ h3 (by rw [← hce]; exact List.mem_cons_self _ _)
    exact ⟨hs, hc⟩

/-- One direction of the handle invariant is kept by `Disconnect`. -/
theorem disconnect_preserves_inv (t : Transport) (ms : MoistureSensor)
    (inv : ms.connected = true →
      ms.service ≠ emptyService ∧ ms.characteristic ≠ emptyChar) :
    (ms.Disconnect t).ms.connected = true →
      (ms.Disconnect t).ms.service ≠ emptyService ∧
      (ms.Disconnect t).ms.characteristic ≠ emptyChar := by
  cases h : t.disconnect ms.device with
  | some e => rw [disconnect_error t ms e h]; exact inv
  | none =>
    rw [disconnect_success t ms h]
    intro hc
    simp at hc

theorem runOps_preserves_inv (cs : List (Transport × Op)) :
    ∀ ms : MoistureSensor, (∀ c ∈ cs, c.1.HandlesNonEmpty) →
      (ms.connected = true →
        ms.service ≠ emptyService ∧ ms.characteristic ≠ emptyChar) →
      (runOps ms cs).connected = true →
        (runOps ms cs).service ≠ emptyService ∧
        (runOps ms cs).characteristic ≠ emptyChar := by
  induction cs with
  | nil => intro ms _ inv; exact inv
  | cons c cs ih =>
    intro ms hwf inv
    have hstep : (applyOp ms c).connected = true →
        (applyOp ms c).service ≠ emptyService ∧
        (applyOp ms c).characteristic ≠ emptyChar := by
      obtain ⟨t, op⟩ := c
      cases op with
      | connect =>
        exact connect_preserves_inv t ms (hwf (t, Op.connect) (List.mem_cons_self _ _)) inv
      | read => exact inv
      | disconnect => exact disconnect_preserves_inv t ms inv
    exact ih (applyOp ms c) (fun x hx => hwf x (List.mem_cons_of_mem _ hx)) hstep

/-- C8 (amended): in every state reached from a sensor returned by
`NewMoistureSensor` through any sequence of `Connect`, `Read` and
`Disconnect` calls, answered by transports whose discovery never hands out
an empty handle, `connected = true` implies that the service and
characteristic handles are non-empty. -/
theorem connected_implies_handles (t0 : Transport) (name : String)
    (ms0 : MoistureSensor) (cs : List (Transport × Op))
    (hnew : (NewMoistureSensor t0 name).sensor = some ms0)
    (hwf : ∀ c ∈ cs, c.1.HandlesNonEmpty)
    (hconn : (runOps ms0 cs).connected = true) :
    (runOps ms0 cs).service ≠ emptyService ∧
    (runOps ms0 cs).characteristic ≠ emptyChar := by
  refine runOps_preserves_inv cs ms0 hwf ?_ hconn
  intro hc
  unfold NewMoistureSensor at hnew
  cases he : (findMoistureSensor t0 name).err with
  | some e => simp [he] at hnew
  | none =>
    simp [he] at hnew
    rw [← hnew] at hc
    simp at hc

theorem goodTransport_handlesNonEmpty : goodTransport.HandlesNonEmpty := by
  constructor
  · intro d u l h hm
    simp only [goodTransport, Except.ok.injEq] at h
    subst h
    simp [emptyService] at hm
  · intro s u l h hm
    simp only [goodTransport, Except.ok.injEq] at h
    subst h
    simp [emptyChar] at hm

theorem connected_implies_handles_witness :
    (NewMoistureSensor goodTransport "MS1").sensor = some freshSensor ∧
    (runOps freshSensor [(goodTransport, Op.connect), (goodTransport, Op.read)]).connected
      = true ∧
    (runOps freshSensor [(goodTransport, Op.connect), (goodTransport, Op.read)]).service
      ≠ emptyService ∧
    (runOps freshSensor [(goodTransport, Op.connect), (goodTransport, Op.read)]).characteristic
      ≠ emptyChar :=
  ⟨by decide, by decide,
    connected_implies_handles goodTransport "MS1" freshSensor
      [(goodTransport, Op.connect), (goodTransport, Op.read)] (by decide)
      (by
        intro c hc
        simp only [List.mem_cons, List.mem_singleton, List.not_mem_nil, or_false] at hc
        rcases hc with hc | hc <;> (subst hc; exact goodTransport_handlesNonEmpty))
      (by decide)⟩

/-- The hypothesis `HandlesNonEmpty` is needed for the invariant: when
discovery hands out the zero value of the handle types, `Connect` succeeds
and sets `connected` although both handles compare equal to the empty
value. -/
theorem connected_with_empty_handles_example :
    (freshSensor.Connect zeroHandleTransport).out = Outcome.nil ∧
    (freshSensor.Connect zeroHandleTransport).ms.connected = true ∧
    (freshSensor.Connect zeroHandleTransport).ms.service = emptyService ∧
    (freshSensor.Connect zeroHandleTransport).ms.characteristic = emptyChar := by
  decide

/-- `Connect` never changes name or address. -/
theorem connect_keeps_identity (t : Transport) (ms : MoistureSensor) :
    (ms.Connect t).ms.name = ms.name ∧ (ms.Connect t).ms.address = ms.address ∧
    (ms.Connect t).calls.head? = some (Call.connect ms.address) := by
  rcases connect_cases t ms with ⟨e, h1⟩ | ⟨d, e, h1, h2⟩ | ⟨d, h1, h2⟩ |
    ⟨d, s, ss, e, h1, h2, h3⟩ | ⟨d, s, ss, h1, h2, h3⟩ | ⟨d, s, ss, c, cs, h1, h2, h3⟩
  · rw [connect_link_error t ms e h1]; exact ⟨rfl, rfl, rfl⟩
  · rw [connect_services_error t ms d e h1 h2]; exact ⟨rfl, rfl, rfl⟩
  · rw [connect_services_empty t ms d h1 h2]; exact ⟨rfl, rfl, rfl⟩
  · rw [connect_characteristics_error t ms d s ss e h1 h2 h3]; exact ⟨rfl, rfl, rfl⟩
  · rw [connect_characteristics_empty t ms d s ss h1 h2 h3]; exact ⟨rfl, rfl, rfl⟩
  · rw [connect_success t ms d s ss c cs h1 h2 h3]; exact ⟨rfl, rfl, rfl⟩

/-- `Disconnect` never changes name or address. -/
theorem disconnect_keeps_identity (t : Transport) (ms : MoistureSensor) :
    (ms.Disconnect t).ms.name = ms.name ∧ (ms.Disconnect t).ms.address = ms.address := by
  cases h : t.disconnect ms.device with
  | some e => rw [disconnect_error t ms e h]; exact ⟨rfl, rfl⟩
  | none => rw [disconnect_success t ms h]; exact ⟨rfl, rfl⟩

/-- C9: `Disconnect` leaves name and address unchanged; and on a sensor that
was connected and then successfully disconnected, a `Connect` whose link
and both discovery steps succeed with non-empty results returns `nil`,
makes exactly the three calls connect / discover services / discover
characteristics (no enable, no scan), connects to the address the first
`Connect` used, sets `connected = true`, and stores the first results of
the new discovery as service and characteristic handles. -/
theorem reconnect_after_disconnect (t1 t2 t3 : Transport) (ms : MoistureSensor)
    (d : Device) (s : DeviceService) (ss : List DeviceService)
    (c : DeviceCharacteristic) (cs : List DeviceCharacteristic)
    (hc : (ms.Connect t1).out = Outcome.nil)
    (hd : ((ms.Connect t1).ms.Disconnect t2).out = Outcome.nil)
    (h1 : t3.connect ms.address = .ok d)
    (h2 : t3.discoverServices d [serviceUUIDValue] = .ok (s :: ss))
    (h3 : t3.discoverCharacteristics s [characteristicUUIDValue] = .ok (c :: cs)) :
    (∀ (t : Transport) (m : MoistureSensor),
      (m.Disconnect t).ms.name = m.name ∧ (m.Disconnect t).ms.address = m.address) ∧
    (ms.Connect t1).ms.connected = true ∧
    ((ms.Connect t1).ms.Disconnect t2).ms.connected = false ∧
    (ms.Connect t1).calls.head? = some (Call.connect ms.address) ∧
    ((ms.Connect t1).ms.Disconnect t2).ms.Connect t3
      = ⟨{ name := ms.name, address := ms.address, device := d, service := s,
           characteristic := c, connected := true }, Outcome.nil,
         [Call.connect ms.address, Call.discoverServices d [serviceUUIDValue],
          Call.discoverCharacteristics s [characteristicUUIDValue]]⟩ ∧
    Call.scan ∉ (((ms.Connect t1).ms.Disconnect t2).ms.Connect t3).calls ∧
    Call.enable ∉ (((ms.Connect t1).ms.Disconnect t2).ms.Connect t3).calls := by
  have hdis := disconnect_nil_state t2 _ hd
  have hn : ((ms.Connect t1).ms.Disconnect t2).ms.name = ms.name := by
    rw [(disconnect_keeps_identity t2 _).1, (connect_keeps_identity t1 ms).1]
  have ha : ((ms.Connect t1).ms.Disconnect t2).ms.address = ms.address := by
    rw [(disconnect_keeps_identity t2 _).2, (connect_keeps_identity t1 ms).2.1]
  have hre : ((ms.Connect t1).ms.Disconnect t2).ms.Connect t3
      = ⟨{ name := ms.name, address := ms.address, device := d, service := s,
           characteristic := c, connected := true }, Outcome.nil,
         [Call.connect ms.address, Call.discoverServices d [serviceUUIDValue],
          Call.discoverCharacteristics s [characteristicUUIDValue]]⟩ := by
    rw [connect_success t3 _ d s ss c cs (by rw [ha]; exact h1) h2 h3, hn, ha]
  refine ⟨fun t m => disconnect_keeps_identity t m, connect_nil_connected t1 ms hc,
    by rw [hdis], (connect_keeps_identity t1 ms).2.2, hre, ?_, ?_⟩
  · rw [hre]; simp
  · rw [hre]; simp

theorem reconnect_after_disconnect_witness :
    (freshSensor.Connect goodTransport).out = Outcome.nil ∧
    ((freshSensor.Connect goodTransport).ms.Disconnect goodTransport).out = Outcome.nil ∧
    ((freshSensor.Connect goodTransport).ms.Disconnect goodTransport).ms.Connect goodTransport
      = ⟨readySensor, Outcome.nil,
         [Call.connect ⟨7⟩, Call.discoverServices ⟨107⟩ [serviceUUIDValue],
          Call.discoverCharacteristics ⟨108⟩ [characteristicUUIDValue]]⟩ :=
  ⟨by decide, by decide,
    (reconnect_after_disconnect goodTransport goodTransport goodTransport freshSensor
      ⟨107⟩ ⟨108⟩ [] ⟨109⟩ [] (by decide) (by decide) rfl rfl rfl).2.2.2.2.1⟩

/-- C10: if `Enable` or `Scan` reports an error, `findMoistureSensor` fails
with it and `NewMoistureSensor` returns no sensor and exactly that error;
if discovery succeeds, `NewMoistureSensor` returns no error and a sensor
with the given name, the address of the scan result that
`findMoistureSensor` returned, `connected = false`, and unset connection,
service and characteristic handles.  Without an `Enable` error discovery
succeeds exactly when `Scan` reports no error, and the scan result is the
last delivered one whose local name equals the given name. -/
theorem NewMoistureSensor_result (t : Transport) (name : String) :
    (∀ e, t.enable = some e →
      (findMoistureSensor t name).err = some e ∧
      (NewMoistureSensor t name).sensor = none ∧
      (NewMoistureSensor t name).err = some e) ∧
    (∀ e, t.enable = none → t.scan.2 = some e →
      (findMoistureSensor t name).err = some e ∧
      (NewMoistureSensor t name).sensor = none ∧
      (NewMoistureSensor t name).err = some e) ∧
    ((findMoistureSensor t name).err = none →
      (NewMoistureSensor t name).err = none ∧
      (NewMoistureSensor t name).sensor
        = some { name := name, address := (findMoistureSensor t name).device.address,
                 device := emptyDevice, service := emptyService,
                 characteristic := emptyChar, connected := false }) ∧
    (t.enable = none → t.scan.2 = none → (findMoistureSensor t name).err = none) ∧
    (∀ (before after : List ScanResult) (sr : ScanResult),
      t.enable = none → t.scan.1 = before ++ sr :: after → sr.localName = name →
      (∀ x ∈ after, x.localName ≠ name) →
      (findMoistureSensor t name).device = sr) := by
  refine ⟨?_, ?_, ?_, ?_, ?_⟩
  · intro e he
    simp [NewMoistureSensor, findMoistureSensor, he]
  · intro e he hs
    simp [NewMoistureSensor, findMoistureSensor, he, hs]
  · intro hf
    simp [NewMoistureSensor, hf]
  · intro he hs
    simp [findMoistureSensor, he, hs]
  · intro before after sr he hscan hname hafter
    have hfold : ∀ (l : List ScanResult) (dev : ScanResult),
        (∀ x ∈ l, x.localName ≠ name) → l.foldl (scanCallback name) dev = dev := by
      intro l
      induction l with
      | nil => intro dev _; rfl
      | cons x xs ih =>
        intro dev hx
        have hxn : x.localName ≠ name := hx x (List.mem_cons_self _ _)
        simp only [List.foldl_cons, scanCallback, hxn, if_false]
        exact ih dev (fun y hy => hx y (List.mem_cons_of_mem _ hy))
    have hdev : (findMoistureSensor t name).device
        = t.scan.1.foldl (scanCallback name) emptyScanResult := by
      unfold findMoistureSensor
      simp only [he]
      cases t.scan.2 <;> rfl
    rw [hdev, hscan, List.foldl_append, List.foldl_cons]
    simp only [scanCallback, hname, if_true]
    exact hfold after sr hafter

theorem NewMoistureSensor_result_witness :
    (findMoistureSensor goodTransport "MS1").err = none ∧
    (findMoistureSensor goodTransport "MS1").device = ⟨⟨7⟩, "MS1"⟩ ∧
    (NewMoistureSensor goodTransport "MS1").err = none ∧
    (NewMoistureSensor goodTransport "MS1").sensor = some freshSensor ∧
    (NewMoistureSensor scanErrorTransport "MS1").sensor = none ∧
    (NewMoistureSensor scanErrorTransport "MS1").err = some (Error.other "scan failed") :=
  have h := NewMoistureSensor_result goodTransport "MS1"
  have g := NewMoistureSensor_result scanErrorTransport "MS1"
  ⟨by decide, h.2.2.2.2 [⟨⟨3⟩, "other"⟩] [] ⟨⟨7⟩, "MS1"⟩ rfl rfl rfl (by simp),
    (h.2.2.1 (by decide)).1, (h.2.2.1 (by decide)).2,
    (g.2.1 (Error.other "scan failed") rfl rfl).2.1,
    (g.2.1 (Error.other "scan failed") rfl rfl).2.2⟩

end Moisture
